import Mathlib

/-!
# Verification of the `rsa-signature-2017` crate

A shallow embedding of the crate's core pipeline: the signature-options
RDF dataset builder (`common.rs` / `signature_options.rs`), the Create
Verify Hash Algorithm (`create_verify_hash`), the sign/verify protocol
(`sign.rs` / `verify.rs`), and the JSON-LD signature extraction logic
(`json_ld.rs`).

External collaborators (the `sha2` SHA-256 hash, the `sophia_c14n`
RDFC 1.0 canonicalizer, the JSON-LD expander and the RSA primitive) are
embedded as follows: SHA-256 is implemented concretely (it is fully
determined by FIPS 180-4 and needed for the known-answer claims); the
canonicalizer, expander and RSA primitives are taken as function
parameters, with a concrete canonicalizer model used for closed
evaluation.

Bytes are plain `Nat`s (< 256 for well-formed data), 32-bit words are
`Nat`s reduced modulo `2^32` explicitly.
-/

namespace RsaSig2017

/-! ## SHA-256 (functional model of the `sha2` crate's `Sha256`) -/

/-- The 32-bit word modulus `2^32`. -/
def w32 : Nat := 4294967296

/-- Right-rotation of a 32-bit word by `n` bits. -/
def rotr (n x : Nat) : Nat := ((x >>> n) ||| (x <<< (32 - n))) % w32

/-- SHA-256 initial hash state (FIPS 180-4 §5.3.3). -/
def initH : List Nat :=
  [1779033703, 3144134277, 1013904242, 2773480762,
   1359893119, 2600822924, 528734635, 1541459225]

/-- SHA-256 round constants (FIPS 180-4 §4.2.2). -/
def kConst : List Nat :=
  [1116352408, 1899447441, 3049323471, 3921009573, 961987163, 1508970993,
   2453635748, 2870763221, 3624381080, 310598401, 607225278, 1426881987,
   1925078388, 2162078206, 2614888103, 3248222580, 3835390401, 4022224774,
   264347078, 604807628, 770255983, 1249150122, 1555081692, 1996064986,
   2554220882, 2821834349, 2952996808, 3210313671, 3336571891, 3584528711,
   113926993, 338241895, 666307205, 773529912, 1294757372, 1396182291,
   1695183700, 1986661051, 2177026350, 2456956037, 2730485921, 2820302411,
   3259730800, 3345764771, 3516065817, 3600352804, 4094571909, 275423344,
   430227734, 506948616, 659060556, 883997877, 958139571, 1322822218,
   1537002063, 1747873779, 1955562222, 2024104815, 2227730452, 2361852424,
   2428436474, 2756734187, 3204031479, 3329325298]

/-- The small sigma-0 message-schedule function. -/
def ssig0 (x : Nat) : Nat := (rotr 7 x) ^^^ (rotr 18 x) ^^^ (x >>> 3)

/-- The small sigma-1 message-schedule function. -/
def ssig1 (x : Nat) : Nat := (rotr 17 x) ^^^ (rotr 19 x) ^^^ (x >>> 10)

/-- The big Sigma-0 round function. -/
def bsig0 (x : Nat) : Nat := (rotr 2 x) ^^^ (rotr 13 x) ^^^ (rotr 22 x)

/-- The big Sigma-1 round function. -/
def bsig1 (x : Nat) : Nat := (rotr 6 x) ^^^ (rotr 11 x) ^^^ (rotr 25 x)

/-- Pack bytes into big-endian 32-bit words, four at a time. -/
def bytesToWords : List Nat → List Nat
  | b0 :: b1 :: b2 :: b3 :: rest =>
      (((b0 * 256 + b1) * 256 + b2) * 256 + b3) :: bytesToWords rest
  | _ => []

/-- Extend a (reversed) message schedule by `n` further words:
`w[i] = w[i-16] + σ₀(w[i-15]) + w[i-7] + σ₁(w[i-2]) mod 2^32`. -/
def extendSchedule : Nat → List Nat → List Nat
  | 0, wrev => wrev
  | n + 1, wrev =>
      let v := (wrev.getD 15 0 + ssig0 (wrev.getD 14 0) + wrev.getD 6 0
                  + ssig1 (wrev.getD 1 0)) % w32
      extendSchedule n (v :: wrev)

/-- The eight SHA-256 working registers. -/
structure Regs where
  a : Nat
  b : Nat
  c : Nat
  d : Nat
  e : Nat
  f : Nat
  g : Nat
  h : Nat

/-- The 64-round compression loop, consuming a list of `(k, w)` pairs. -/
def compressLoop : List (Nat × Nat) → Regs → Regs
  | [], r => r
  | (k, w) :: rest, r =>
      let ch := (r.e &&& r.f) ^^^ ((r.e ^^^ 0xffffffff) &&& r.g)
      let t1 := (r.h + bsig1 r.e + ch + k + w) % w32
      let maj := (r.a &&& r.b) ^^^ (r.a &&& r.c) ^^^ (r.b &&& r.c)
      let t2 := (bsig0 r.a + maj) % w32
      compressLoop rest ⟨(t1 + t2) % w32, r.a, r.b, r.c, (r.d + t1) % w32, r.e, r.f, r.g⟩

/-- Compress one 64-byte block into the running hash state. -/
def compressBlock (h : List Nat) (block : List Nat) : List Nat :=
  let w16 := bytesToWords block
  let w := (extendSchedule 48 w16.reverse).reverse
  let r := compressLoop (kConst.zip w)
    ⟨h.getD 0 0, h.getD 1 0, h.getD 2 0, h.getD 3 0,
     h.getD 4 0, h.getD 5 0, h.getD 6 0, h.getD 7 0⟩
  [(h.getD 0 0 + r.a) % w32, (h.getD 1 0 + r.b) % w32,
   (h.getD 2 0 + r.c) % w32, (h.getD 3 0 + r.d) % w32,
   (h.getD 4 0 + r.e) % w32, (h.getD 5 0 + r.f) % w32,
   (h.getD 6 0 + r.g) % w32, (h.getD 7 0 + r.h) % w32]

/-- Fold the compression over all 64-byte blocks; `fuel` bounds the number
of blocks (any fuel at least the block count gives the same result). -/
def sha256Blocks : Nat → List Nat → List Nat → List Nat
  | 0, _, h => h
  | Nat.succ fuel, msg, h =>
      match msg with
      | [] => h
      | _ => sha256Blocks fuel (msg.drop 64) (compressBlock h (msg.take 64))

/-- The 8-byte big-endian encoding of `n` (the message bit length). -/
def lengthBytes64 (n : Nat) : List Nat :=
  [(n >>> 56) % 256, (n >>> 48) % 256, (n >>> 40) % 256, (n >>> 32) % 256,
   (n >>> 24) % 256, (n >>> 16) % 256, (n >>> 8) % 256, n % 256]

/-- Merkle–Damgård padding: `0x80`, zeros, then the 64-bit bit length,
to a multiple of 64 bytes. -/
def padMessage (msg : List Nat) : List Nat :=
  msg ++ 128 :: (List.replicate ((119 - msg.length % 64) % 64) 0
    ++ lengthBytes64 (8 * msg.length))

/-- Big-endian bytes of one 32-bit word. -/
def wordBytes (w : Nat) : List Nat :=
  [(w >>> 24) % 256, (w >>> 16) % 256, (w >>> 8) % 256, w % 256]

/-- SHA-256 of a byte sequence, as its 32 digest bytes. -/
def sha256 (msg : List Nat) : List Nat :=
  let padded := padMessage msg
  ((sha256Blocks padded.length padded initH).map wordBytes).flatten

/-! ## Hex and UTF-8 encoding

`hex::encode` produces the lowercase hexadecimal string of a byte
sequence; the source writes that string into a hasher as UTF-8 (ASCII)
bytes, so the model produces the ASCII bytes directly. -/

/-- ASCII code of the lowercase hex digit for a nibble. -/
def hexDigit (n : Nat) : Nat := if n < 10 then 48 + n else 87 + n

/-- Lowercase-hex ASCII bytes of a byte sequence (model of `hex::encode`
followed by UTF-8 encoding). -/
def hexBytes (bytes : List Nat) : List Nat :=
  (bytes.map (fun b => [hexDigit (b / 16), hexDigit (b % 16)])).flatten

/-- UTF-8 bytes of one character. -/
def charUtf8 (c : Char) : List Nat :=
  let n := c.toNat
  if n < 128 then [n]
  else if n < 2048 then [192 + n / 64, 128 + n % 64]
  else if n < 65536 then [224 + n / 4096, 128 + (n / 64) % 64, 128 + n % 64]
  else [240 + n / 262144, 128 + (n / 4096) % 64, 128 + (n / 64) % 64, 128 + n % 64]

/-- UTF-8 bytes of a string. -/
def utf8Bytes (s : String) : List Nat := (s.data.map charUtf8).flatten

/-! ## RDF data model

Model of the `sophia` term/quad/dataset capabilities the crate consumes
(§3 of the design: set-semantics datasets of quads
`(subject, predicate, object, optional graph name)`). Only the term
kinds the crate constructs or inspects are modelled: IRIs, blank nodes,
and literals with a datatype (a `SimpleTerm` built from a plain `&str`
carries the `xsd:string` datatype). -/

/-- An RDF term. -/
inductive Term where
  | iri (value : String)
  | bnode (id : String)
  | literal (lex : String) (datatype : String)
deriving DecidableEq, Repr

/-- Model of `sophia`'s `Term::is_blank_node`. -/
def Term.isBnode : Term → Bool
  | .bnode _ => true
  | _ => false

/-- An RDF quad; `g = none` is the default graph. -/
structure RdfQuad where
  s : Term
  p : Term
  o : Term
  g : Option Term
deriving DecidableEq, Repr

/-- Set-semantics insertion (`MutableDataset::insert` on `LightDataset`):
a quad already present is not duplicated. -/
def insertQuad (d : List RdfQuad) (q : RdfQuad) : List RdfQuad :=
  if q ∈ d then d else d ++ [q]

/-! ## Predicate and datatype IRIs (src/common/consts.rs) -/

/-- IRI of `dc:created` (src/common/consts.rs). -/
def CREATED : String := "http://purl.org/dc/terms/created"

/-- IRI of `dc:creator` (src/common/consts.rs). -/
def CREATOR : String := "http://purl.org/dc/terms/creator"

/-- IRI of `sec:domain` (src/common/consts.rs). -/
def DOMAIN : String := "https://w3id.org/security#domain"

/-- IRI of `sec:nonce` (src/common/consts.rs). -/
def NONCE : String := "https://w3id.org/security#nonce"

/-- IRI of `xsd:dateTime` (src/common/consts.rs). -/
def DATETIME : String := "http://www.w3.org/2001/XMLSchema#dateTime"

/-- IRI of `xsd:string`, the implicit datatype `sophia` attaches to a term
built from a plain string. -/
def xsdString : String := "http://www.w3.org/2001/XMLSchema#string"

/-! ## SignatureOptions (src/common.rs:19-72) -/

/-- Model of `common::SignatureOptions` (src/common.rs:19): the
verify-side options, with `created` already resolved. -/
structure SignatureOptions where
  created : String
  creator : String
  domain : Option String
  nonce : Option String

/-- Model of `common::SignatureOptions::to_dataset` (src/common.rs:27-71):
builds the options dataset with subject `_:b0` in the default graph,
inserting `created` (typed `xsd:dateTime`), `creator`, then `domain` and
`nonce` when present. -/
def SignatureOptions.to_dataset (o : SignatureOptions) : List RdfQuad :=
  let ret : List RdfQuad := []
  let ret := insertQuad ret
    ⟨.bnode "b0", .iri CREATED, .literal o.created DATETIME, none⟩
  let ret := insertQuad ret
    ⟨.bnode "b0", .iri CREATOR, .iri o.creator, none⟩
  let ret := match o.domain with
    | some domain => insertQuad ret ⟨.bnode "b0", .iri DOMAIN, .literal domain xsdString, none⟩
    | none => ret
  match o.nonce with
  | some nonce => insertQuad ret ⟨.bnode "b0", .iri NONCE, .literal nonce xsdString, none⟩
  | none => ret

/-- The four quads of the options dataset are pairwise distinct (their
predicates are four different IRIs), so each set-semantics insertion
appends, and `to_dataset` is the evident list. -/
theorem SignatureOptions.to_dataset_eq (o : SignatureOptions) :
    o.to_dataset =
      [⟨.bnode "b0", .iri CREATED, .literal o.created DATETIME, none⟩,
       ⟨.bnode "b0", .iri CREATOR, .iri o.creator, none⟩]
      ++ (match o.domain with
          | some domain => [⟨.bnode "b0", .iri DOMAIN, .literal domain xsdString, none⟩]
          | none => [])
      ++ (match o.nonce with
          | some nonce => [⟨.bnode "b0", .iri NONCE, .literal nonce xsdString, none⟩]
          | none => []) := by
  obtain ⟨c, cr, d, n⟩ := o
  cases d <;> cases n <;>
    simp [SignatureOptions.to_dataset, insertQuad, CREATED, CREATOR, DOMAIN, NONCE]

/-! ## Sign-side SignatureOptions (src/signature_options.rs) -/

/-- Model of `signature_options::SignatureOptions`
(src/signature_options.rs:17): `created` is optional and resolved to the
current time at dataset construction. -/
structure SignatureOptionsOpt where
  created : Option String
  creator : String
  domain : Option String
  nonce : Option String

/-- Model of `signature_options::SignatureOptions::to_dataset`
(src/signature_options.rs:96-152). The nondeterministic
`format_iso8601_time(SystemTime::now())` is the parameter `now`. Returns
the dataset together with `created_owned`, which is `some now` exactly
when `created` was unset. -/
def SignatureOptionsOpt.to_dataset (o : SignatureOptionsOpt) (now : String) :
    List RdfQuad × Option String :=
  let created_owned : Option String :=
    match o.created with
    | some _ => none
    | none => some now
  let created : String :=
    match o.created with
    | some created => created
    | none => now
  let ret : List RdfQuad := []
  let ret := insertQuad ret
    ⟨.bnode "b0", .iri CREATED, .literal created DATETIME, none⟩
  let ret := insertQuad ret
    ⟨.bnode "b0", .iri CREATOR, .iri o.creator, none⟩
  let ret := match o.domain with
    | some domain => insertQuad ret ⟨.bnode "b0", .iri DOMAIN, .literal domain xsdString, none⟩
    | none => ret
  let ret := match o.nonce with
    | some nonce => insertQuad ret ⟨.bnode "b0", .iri NONCE, .literal nonce xsdString, none⟩
    | none => ret
  (ret, created_owned)

/-- The sign-side dataset coincides with the verify-side dataset built
from the resolved `created` value. -/
theorem SignatureOptionsOpt.to_dataset_fst (o : SignatureOptionsOpt) (now : String) :
    (o.to_dataset now).1 =
      SignatureOptions.to_dataset ⟨o.created.getD now, o.creator, o.domain, o.nonce⟩ := by
  obtain ⟨c, cr, d, n⟩ := o
  cases c <;> rfl

/-- The second component of `to_dataset` is `some now` iff `created` was
unset. -/
theorem SignatureOptionsOpt.to_dataset_snd (o : SignatureOptionsOpt) (now : String) :
    (o.to_dataset now).2 = match o.created with | some _ => none | none => some now := by
  obtain ⟨c, cr, d, n⟩ := o
  cases c <;> rfl

/-! ## Incremental hasher model and the canonicalizer interface

The `sha2` incremental hasher is modelled functionally: its state is the
byte sequence absorbed so far, `update` appends, `finalize` hashes.

`sophia_c14n::rdfc10::normalize(dataset, DigestWrite::new(hasher))`
canonicalizes a dataset and streams the canonical bytes into a hasher;
its model is a function from the dataset to the canonical byte sequence
or a canonicalization error. The `C14nError::Io` variant is omitted: the
sink is `DigestWrite`, whose writes never fail, and both call sites mark
that variant unreachable (src/error.rs:24, src/signature_options.rs:52). -/

/-- Incremental-hasher update (`Digest::update` via `DigestWrite`):
absorb bytes. -/
def Hasher.update (st : List Nat) (data : List Nat) : List Nat := st ++ data

/-- Incremental-hasher finalization (`Digest::finalize`). -/
def Hasher.finalize (st : List Nat) : List Nat := sha256 st

/-- Model of `error::DatasetError` (src/error.rs:7-17): the three
recoverable canonicalization failure kinds. -/
inductive DatasetError (DE : Type) where
  | dataset (e : DE)
  | toxicGraph (e : String)
  | unsupported (e : String)
deriving DecidableEq

/-- A canonicalizer: the external collaborator
`canonicalize(dataset) -> byte stream | error` of §6, with errors
already in `DatasetError` form (the source's
`DatasetError::from_c14n_error` is variant-wise). -/
def Canonicalizer (DE : Type) : Type :=
  List RdfQuad → Except (DatasetError DE) (List Nat)

/-- Model of `common::create_verify_hash` (src/common.rs:75-131), the
Create Verify Hash Algorithm: canonicalize and hash the options dataset
first (failures map to `Either::Right`), write its lowercase hex digest
into the `to_be_signed` hasher, then canonicalize and hash the target
dataset (failures map to `Either::Left`), write its lowercase hex digest
into the same hasher, and finalize. -/
def create_verify_hash {DE : Type} (canon : Canonicalizer DE)
    (dataset options : List RdfQuad) :
    Except (DatasetError DE ⊕ DatasetError DE) (List Nat) :=
  let to_be_signed : List Nat := []
  let hasher : List Nat := []
  match canon options with
  | .error e => .error (.inr e)
  | .ok optionsCanonical =>
      let hasher := Hasher.update hasher optionsCanonical
      let output := Hasher.finalize hasher
      let hasher : List Nat := []
      let to_be_signed := Hasher.update to_be_signed (hexBytes output)
      match canon dataset with
      | .error e => .error (.inl e)
      | .ok documentCanonical =>
          let hasher := Hasher.update hasher documentCanonical
          let digest := Hasher.finalize hasher
          let to_be_signed := Hasher.update to_be_signed (hexBytes digest)
          .ok (Hasher.finalize to_be_signed)

/-- Modelled from the spec: the crate-level `Error` type (`crate::Error`,
used at src/sign.rs:11 and src/signature_options.rs:15) is not among the
provided sources. Per the §7 error taxonomy and the mapping at
src/signature_options.rs:48-56 it has exactly the dataset-backend,
toxic-graph and unsupported-feature variants. -/
inductive CrateError (DE : Type) where
  | dataset (e : DE)
  | toxicGraph (e : String)
  | unsupported (e : String)
deriving DecidableEq

/-- Model of `signature_options::SignatureOptions::create_verify_hash`
(src/signature_options.rs:27-94): builds the options dataset (resolving
`created` from `now` when unset), then runs the Create Verify Hash
Algorithm. The outer `Option` is `none` where the source panics: the
canonicalization of the fixed-shape options dataset is unwrapped at
src/signature_options.rs:68. -/
def SignatureOptionsOpt.create_verify_hash {DE : Type} (canon : Canonicalizer DE)
    (now : String) (o : SignatureOptionsOpt) (dataset : List RdfQuad) :
    Option (Except (CrateError DE) (List Nat × Option String)) :=
  let to_be_signed : List Nat := []
  let hasher : List Nat := []
  let (options, created) := o.to_dataset now
  match canon options with
  | .error _ => none
  | .ok optionsCanonical =>
      let hasher := Hasher.update hasher optionsCanonical
      let output := Hasher.finalize hasher
      let hasher : List Nat := []
      let to_be_signed := Hasher.update to_be_signed (hexBytes output)
      match canon dataset with
      | .error (.dataset e) => some (.error (.dataset e))
      | .error (.toxicGraph e) => some (.error (.toxicGraph e))
      | .error (.unsupported e) => some (.error (.unsupported e))
      | .ok documentCanonical =>
          let hasher := Hasher.update hasher documentCanonical
          let digest := Hasher.finalize hasher
          let to_be_signed := Hasher.update to_be_signed (hexBytes digest)
          some (.ok (Hasher.finalize to_be_signed, created))

/-! ## Sign protocol (src/sign.rs) -/

/-- The signature type tag (src/lib.rs:43-45, src/sign.rs:50-52). -/
inductive SignatureType where
  | RsaSignature2017
deriving DecidableEq, Repr

/-- Model of `sign::Signature` (src/sign.rs:29-45); `Cow` strings are
plain strings, `signature_value` is the raw signature bytes. -/
structure Signature where
  kind : SignatureType
  created : String
  creator : String
  domain : Option String
  nonce : Option String
  signature_value : List Nat

/-- Model of `sign::SignOptions` (src/sign.rs:15-24): `nonce = none`
means auto-generate, `some none` means omit, `some (some n)` means use
`n` verbatim. The injected random generator is modelled by the
`genNonce` parameter of the signing function. -/
structure SignOptions where
  created : Option String
  domain : Option String
  nonce : Option (Option String)

/-- Nonce resolution of the signing protocol (src/sign.rs:115-126):
an explicit literal is used verbatim, an explicit omission omits, and an
unset nonce is generated (`gen_nonce`, modelled by `genNonce`). -/
def resolveNonce (nonce : Option (Option String)) (genNonce : String) : Option String :=
  match nonce with
  | some (some nonce) => some nonce
  | some none => none
  | none => some genNonce

/-- Created-timestamp resolution of the signing protocol
(src/sign.rs:136-146): the `created` value returned by the hash
computation when it resolved one, otherwise the caller-supplied value
(whose presence the source guarantees there and unwraps; the `now`
default of the impossible remaining case is never read). -/
def resolveCreated (created : Option String) (selfCreated : Option String)
    (now : String) : String :=
  match created with
  | some created => created
  | none => selfCreated.getD now

/-- Model of `SignOptions::sign_rsa_signature_2017` (src/sign.rs:106-165).
External inputs are parameters: `canon` is the canonicalizer, `rsaSign`
models `RsaPrivateKey::sign_with_rng` with `Pkcs1v15Sign::new::<Sha256>`
padding for a fixed key and generator (`none` models `rsa::Error`),
`genNonce` models `gen_nonce(rng)` and `now` models
`format_iso8601_time(SystemTime::now())`. The outer `Option` is `none`
where the source panics; in particular the RSA signing result is
unwrapped at src/sign.rs:150 and 152-153. -/
def SignOptions.sign_rsa_signature_2017 {DE : Type} (canon : Canonicalizer DE)
    (rsaSign : List Nat → Option (List Nat)) (genNonce now : String)
    (self : SignOptions) (dataset : List RdfQuad) (creator : String) :
    Option (Except (CrateError DE) Signature) :=
  let nonce : Option String := resolveNonce self.nonce genNonce
  let options : SignatureOptionsOpt := ⟨self.created, creator, self.domain, nonce⟩
  match options.create_verify_hash canon now dataset with
  | none => none
  | some (.error e) => some (.error e)
  | some (.ok (to_be_signed, created)) =>
      let created : String := resolveCreated created self.created now
      match rsaSign to_be_signed with
      | none => none
      | some signature_value =>
          some (.ok ⟨.RsaSignature2017, created, creator, self.domain, nonce, signature_value⟩)

/-! ## Verify protocol (src/verify.rs) -/

/-- Model of `verify::Error` (src/verify.rs:9-20). The payload of the
`Verification` variant (the opaque `rsa::Error`) is dropped. -/
inductive VerifyError (DE OE : Type) where
  | dataset (e : DatasetError DE)
  | options (e : DatasetError OE)
  | verification
deriving DecidableEq

/-- Model of `verify::verify_rsa_signature_2017` (src/verify.rs:24-38):
recompute the digest via the Create Verify Hash Algorithm from the
caller-supplied datasets, then check the RSA signature. `rsaVerify`
models `RsaPublicKey::verify` with `Pkcs1v15Sign::new::<Sha256>` padding
for a fixed public key, returning whether the check succeeded. -/
def verify_rsa_signature_2017 {DE : Type} (canon : Canonicalizer DE)
    (rsaVerify : List Nat → List Nat → Bool)
    (dataset options : List RdfQuad) (signature : List Nat) :
    Except (VerifyError DE DE) Unit :=
  match create_verify_hash canon dataset options with
  | .error (.inl e) => .error (.dataset e)
  | .error (.inr e) => .error (.options e)
  | .ok to_be_verified =>
      if rsaVerify to_be_verified signature then .ok () else .error .verification

/-! ## JSON model and the signed-document extractor (src/json_ld.rs)

JSON values model `json_syntax::Value`; objects are entry lists in
document order (the `json_syntax` `Object` preserves order and may hold
duplicate keys, whence the `last()` calls in the source). -/

/-- A JSON value. -/
inductive Json where
  | null
  | bool (b : Bool)
  | num (n : Int)
  | str (s : String)
  | arr (items : List Json)
  | obj (entries : List (String × Json))

/-- Whether a JSON value is an array (`Value::as_array`). -/
def Json.isArr : Json → Bool
  | .arr _ => true
  | _ => false

/-- Model of `json_syntax::Value::force_as_array`: an array is itself,
any other value is a singleton. -/
def forceAsArray : Json → List Json
  | .arr items => items
  | v => [v]

/-- Whether an object has an entry with the given key. -/
def hasKey (key : String) : List (String × Json) → Bool
  | [] => false
  | (k, _) :: rest => k == key || hasKey key rest

/-- The value of the last entry with the given key
(`Object::get_entries(key).last()` / `get(key).last()`). -/
def getLast (key : String) : List (String × Json) → Option Json
  | [] => none
  | (k, v) :: rest =>
      match getLast key rest with
      | some r => some r
      | none => if k = key then some v else none

/-- Replace the value of the last entry with the given key
(the in-place mutation through `get_mut(key).last()`). -/
def setLast (key : String) (v : Json) : List (String × Json) → List (String × Json)
  | [] => []
  | (k, w) :: rest =>
      if (getLast key rest).isSome then (k, w) :: setLast key v rest
      else if k = key then (k, v) :: rest
      else (k, w) :: setLast key v rest

/-- Remove every entry with the given key, returning the remaining
entries and the value of the last removed one
(`Object::remove(key).last()`). -/
def removeAll (key : String) : List (String × Json) → List (String × Json) × Option Json
  | [] => ([], none)
  | (k, v) :: rest =>
      let (remaining, lastRemoved) := removeAll key rest
      if k = key then
        (remaining, match lastRemoved with | some l => some l | none => some v)
      else ((k, v) :: remaining, lastRemoved)

/-- Model of `json_ld::Error` (src/json_ld.rs:54-68); `E` is the JSON-LD
expansion error type. The two dataset-sink variants are retained for the
error surface even though the list-backed dataset model never raises
them. -/
inductive ParseError (E : Type) where
  | missingSignatureOptions
  | unsupportedType
  | nestingSignatureNode
  | duplicateSignatures
  | badSubject
  | badSignatureOptions
  | badSignatureValue
  | document (e : E)
  | options (e : E)
  | documentDataset (e : E)
  | optionsDataset (e : E)

/-- Context-merge step of `parse` (src/json_ld.rs:358-381): when the
document has a top-level `@context` entry, inject its value `dcv` into
the candidate object: prepend the (array-coerced) document context items
to the candidate's own `@context` array, wrap a scalar `@context` into
an array after them, or append the document's entry verbatim when the
candidate has none. -/
def mergeContext (docCtx : Option Json) (o : List (String × Json)) : List (String × Json) :=
  match docCtx with
  | none => o
  | some dcv =>
      match getLast "@context" o with
      | some oc =>
          let dc := forceAsArray dcv
          match oc with
          | .arr items => setLast "@context" (.arr (dc ++ items)) o
          | other => setLast "@context" (.arr (dc ++ [other])) o
      | none => o ++ [("@context", dcv)]

/-- ASCII decoding of one base64 alphabet character. -/
def b64Val (c : Char) : Option Nat :=
  let n := c.toNat
  if 65 ≤ n ∧ n ≤ 90 then some (n - 65)
  else if 97 ≤ n ∧ n ≤ 122 then some (n - 71)
  else if 48 ≤ n ∧ n ≤ 57 then some (n + 4)
  else if c = '+' then some 62
  else if c = '/' then some 63
  else none

/-- Base64 decoding of a character list in groups of four, standard
alphabet, padding required, non-canonical trailing bits rejected (the
behavior of `base64::engine::general_purpose::STANDARD`). -/
def base64DecodeChars : List Char → Option (List Nat)
  | [] => some []
  | c0 :: c1 :: c2 :: c3 :: rest =>
      match b64Val c0, b64Val c1 with
      | some v0, some v1 =>
          if c2 = '=' then
            if c3 = '=' ∧ rest = [] ∧ v1 % 16 = 0 then some [v0 * 4 + v1 / 16] else none
          else
            match b64Val c2 with
            | some v2 =>
                if c3 = '=' then
                  if rest = [] ∧ v2 % 4 = 0 then
                    some [v0 * 4 + v1 / 16, v1 % 16 * 16 + v2 / 4]
                  else none
                else
                  match b64Val c3, base64DecodeChars rest with
                  | some v3, some bytes =>
                      some ((v0 * 4 + v1 / 16) :: (v1 % 16 * 16 + v2 / 4)
                        :: (v2 % 4 * 64 + v3) :: bytes)
                  | _, _ => none
            | none => none
      | _, _ => none
  | _ => none

/-- Model of `STANDARD.decode` on a string. -/
def base64Decode (s : String) : Option (List Nat) := base64DecodeChars s.data

/-- A signature candidate after the lexical phase of `parse`: the
residual options object (type/id/signatureValue removed, context
merged), the optional `id`, and the decoded signature bytes. -/
structure PreSignature where
  optionsObj : List (String × Json)
  id : Option String
  signature_value : List Nat

/-- Per-candidate lexical processing of `parse` (src/json_ld.rs:336-437):
unwrap a one-element candidate array, merge the document context, check
and remove `type`, remove `id` and `signatureValue`, and decode the
signature bytes. -/
def processCandidate {E : Type} (docCtx : Option Json) (options : Json) :
    Except (ParseError E) PreSignature :=
  match options with
  | .obj o => processObj docCtx o
  | .arr set =>
      match set with
      | [] => .error .missingSignatureOptions
      | [elm] =>
          match elm with
          | .obj o => processObj docCtx o
          | _ => .error .badSignatureOptions
      | _ => .error .duplicateSignatures
  | _ => .error .badSignatureOptions
where
  /-- Steps 4-7 of §4.5 on an options object. -/
  processObj (docCtx : Option Json) (o : List (String × Json)) :
      Except (ParseError E) PreSignature :=
    let o := mergeContext docCtx o
    let (o, tyEntry) := removeAll "type" o
    let is_rsa_signature_2017 : Bool :=
      match tyEntry with
      | some (.str ty) => ty == "RsaSignature2017"
      | some (.arr types) => types.any fun ty =>
          match ty with
          | .str ty => ty == "RsaSignature2017"
          | _ => false
      | some _ => false
      | none => false
    if !is_rsa_signature_2017 then .error .unsupportedType
    else
      let (o, idEntry) := removeAll "id" o
      let id : Option String :=
        match idEntry with
        | some (.str s) => some s
        | _ => none
      let (o, svEntry) := removeAll "signatureValue" o
      match svEntry with
      | some (.str v) =>
          match base64Decode v with
          | some signature_value => .ok ⟨o, id, signature_value⟩
          | none => .error .badSignatureValue
      | some _ => .error .badSignatureValue
      | none => .error .missingSignatureOptions

/-- Map a fallible function over a list, failing on the first error (the
`collect::<Result<_, _>>()` idiom). -/
def mapExcept {α β ε : Type} (f : α → Except ε β) : List α → Except ε (List β)
  | [] => .ok []
  | x :: xs =>
      match f x with
      | .error e => .error e
      | .ok y =>
          match mapExcept f xs with
          | .error e => .error e
          | .ok ys => .ok (y :: ys)

/-- The signature-node subject check of `parse` (src/json_ld.rs:486-503):
walk the options quads carrying the subject seen so far; a second
distinct subject, a non-blank-node subject, or any named graph is a
nesting-signature-node error. -/
def checkLoop {E : Type} : Option Term → List RdfQuad → Except (ParseError E) Unit
  | _, [] => .ok ()
  | some ss, q :: rest =>
      if ss ≠ q.s ∨ q.g.isSome then .error .nestingSignatureNode
      else checkLoop (some ss) rest
  | none, q :: rest =>
      if !q.s.isBnode ∨ q.g.isSome then .error .nestingSignatureNode
      else checkLoop (some q.s) rest

/-- A parsed signature (model of `json_ld::Signature`,
src/json_ld.rs:38-44) with its options dataset. -/
structure ParsedSignature where
  options : List RdfQuad
  id : Option String
  kind : SignatureType
  signature_value : List Nat

/-- Model of `json_ld::SignedDocument` (src/json_ld.rs:32-36). -/
structure SignedDocument where
  document : List RdfQuad
  signatures : List ParsedSignature

/-- Expansion and subject check for one candidate
(src/json_ld.rs:449-513): expand the residual options object to quads
and validate that they form a single flat blank-node-rooted node. -/
def collectSignature {E : Type} (expandOpts : Json → Except E (List RdfQuad))
    (pre : PreSignature) : Except (ParseError E) ParsedSignature :=
  match expandOpts (.obj pre.optionsObj) with
  | .error e => .error (.options e)
  | .ok quads =>
      match checkLoop none quads with
      | .error e => .error e
      | .ok () => .ok ⟨quads, pre.id, .RsaSignature2017, pre.signature_value⟩

/-- Model of `json_ld::parse` (src/json_ld.rs:285-519). `expandDoc` and
`expandOpts` are the external JSON-LD expanders for the document and the
options objects (§6). The root must be an object; the top-level
`signature` entry is removed lexically; its value is normalized to a
candidate list (an array yields its elements, anything else itself);
candidates are processed lexically, then the document and each options
object are expanded and each options quad-set is subject-checked. -/
def parse {E : Type} (expandDoc expandOpts : Json → Except E (List RdfQuad))
    (document : Json) : Except (ParseError E) SignedDocument :=
  match document with
  | .obj documentObject =>
      let (documentObject, signatureEntry) := removeAll "signature" documentObject
      match signatureEntry with
      | none => .error .missingSignatureOptions
      | some signatureValue =>
          let candidates : List Json :=
            match signatureValue with
            | .arr set => set
            | v => [v]
          let documentContext := getLast "@context" documentObject
          match mapExcept (processCandidate documentContext) candidates with
          | .error e => .error e
          | .ok pres =>
              match expandDoc (.obj documentObject) with
              | .error e => .error (.document e)
              | .ok documentQuads =>
                  match mapExcept (collectSignature expandOpts) pres with
                  | .error e => .error e
                  | .ok sigs => .ok ⟨documentQuads, sigs⟩
  | _ => .error .missingSignatureOptions

/-- The per-signature verification loop of
`SignedDocument::verify_rsa_signature_2017` (src/json_ld.rs:205-212):
verify each signature against the document dataset, stopping at the
first failure. -/
def verifySignatureList {DE : Type} (canon : Canonicalizer DE)
    (rsaVerify : List Nat → List Nat → Bool) (document : List RdfQuad) :
    List ParsedSignature → Except (VerifyError DE DE) Unit
  | [] => .ok ()
  | sig :: rest =>
      match verify_rsa_signature_2017 canon rsaVerify document sig.options
          sig.signature_value with
      | .error e => .error e
      | .ok () => verifySignatureList canon rsaVerify document rest

/-- Model of `SignedDocument::verify_rsa_signature_2017`
(src/json_ld.rs:201-214). -/
def SignedDocument.verify_rsa_signature_2017 {DE : Type} (canon : Canonicalizer DE)
    (rsaVerify : List Nat → List Nat → Bool) (sd : SignedDocument) :
    Except (VerifyError DE DE) Unit :=
  verifySignatureList canon rsaVerify sd.document sd.signatures

/-! ## Concrete canonicalizer model

Modelled from the spec: the external `sophia_c14n::rdfc10::normalize`
collaborator (§6: deterministic canonical serialization, RDFC 1.0) is
not part of this repository. The model serializes each quad in canonical
N-Quads form (terms N-Triples-escaped, `xsd:string` datatypes implicit)
with blank nodes relabelled `c14n<i>` in order of first occurrence, and
concatenates the lines in code-point order. For datasets with at most
one blank node this coincides with RDFC 1.0, whose hash-based label
assignment is degenerate there; the hash-based assignment for several
blank nodes is not modelled. -/

/-- Decimal ASCII digits of `n` (auxiliary, fuel-recursive). -/
def natDigitsAux : Nat → Nat → List Nat
  | 0, _ => []
  | fuel + 1, n => if n < 10 then [48 + n] else natDigitsAux fuel (n / 10) ++ [48 + n % 10]

/-- Decimal ASCII digits of `n`. -/
def natDigits (n : Nat) : List Nat := natDigitsAux (n + 1) n

/-- Index of a blank-node id in the issue-order list. -/
def bnodeIndex : List String → String → Nat
  | [], _ => 0
  | x :: rest, id => if x = id then 0 else bnodeIndex rest id + 1

/-- Record a blank-node id at its first occurrence. -/
def addBnode (acc : List String) : Term → List String
  | .bnode id => if id ∈ acc then acc else acc ++ [id]
  | _ => acc

/-- Record the blank-node ids of one quad (subject, object, graph). -/
def quadBnodes (acc : List String) (q : RdfQuad) : List String :=
  let acc := addBnode acc q.s
  let acc := addBnode acc q.o
  match q.g with
  | some g => addBnode acc g
  | none => acc

/-- Blank-node ids of a dataset in first-occurrence order. -/
def datasetBnodes (d : List RdfQuad) : List String := d.foldl quadBnodes []

/-- N-Triples literal escaping at the byte level: quote, backslash, LF
and CR become two-byte escapes. -/
def escapeByte (b : Nat) : List Nat :=
  if b = 34 then [92, 34]
  else if b = 92 then [92, 92]
  else if b = 10 then [92, 110]
  else if b = 13 then [92, 114]
  else [b]

/-- Escape a byte sequence. -/
def escapeBytes (l : List Nat) : List Nat := (l.map escapeByte).flatten

/-- Canonical N-Quads serialization of one term, as UTF-8 bytes; blank
nodes are relabelled through `labels`. -/
def serTerm (labels : List String) : Term → List Nat
  | .iri v => 60 :: (utf8Bytes v ++ [62])
  | .bnode id => 95 :: 58 :: (utf8Bytes "c14n" ++ natDigits (bnodeIndex labels id))
  | .literal lex dt =>
      34 :: (escapeBytes (utf8Bytes lex) ++ [34]
        ++ (if dt = xsdString then [] else 94 :: 94 :: 60 :: (utf8Bytes dt ++ [62])))

/-- Canonical N-Quads line for one quad (terms separated by spaces,
terminated by a period and a newline). -/
def serQuad (labels : List String) (q : RdfQuad) : List Nat :=
  serTerm labels q.s ++ 32 :: serTerm labels q.p ++ 32 :: serTerm labels q.o
    ++ (match q.g with
        | some g => 32 :: serTerm labels g
        | none => [])
    ++ [32, 46, 10]

/-- Byte-wise lexicographic order on lines. -/
def lexLe : List Nat → List Nat → Bool
  | [], _ => true
  | _ :: _, [] => false
  | a :: as, b :: bs => if a < b then true else if b < a then false else lexLe as bs

/-- Insert a line into a sorted line list. -/
def insertSorted (x : List Nat) : List (List Nat) → List (List Nat)
  | [] => [x]
  | y :: ys => if lexLe x y then x :: y :: ys else y :: insertSorted x ys

/-- Insertion sort on lines. -/
def sortLines : List (List Nat) → List (List Nat)
  | [] => []
  | x :: xs => insertSorted x (sortLines xs)

/-- The canonical byte stream of a dataset: each quad serialized with
canonical blank-node labels, lines sorted in code-point order and
concatenated. -/
def rdfc10Normalize (d : List RdfQuad) : List Nat :=
  let labels := datasetBnodes d
  (sortLines (d.map (serQuad labels))).flatten

/-- The concrete canonicalizer, wrapped as the infallible case of the
canonicalizer interface. -/
def rdfc10Canon : Canonicalizer Unit := fun d => .ok (rdfc10Normalize d)

/-! ## Supporting lemmas -/

/-- One compression step yields an 8-word state. -/
theorem compressBlock_length (h block : List Nat) : (compressBlock h block).length = 8 := rfl

/-- The block fold preserves the 8-word state length. -/
theorem sha256Blocks_length (fuel : Nat) :
    ∀ (msg h : List Nat), h.length = 8 → (sha256Blocks fuel msg h).length = 8 := by
  induction fuel with
  | zero => intro msg h hh; simpa [sha256Blocks] using hh
  | succ f ih =>
      intro msg h hh
      cases msg with
      | nil => simpa [sha256Blocks] using hh
      | cons b rest =>
          simpa [sha256Blocks] using ih _ _ (compressBlock_length h _)

/-- Flattening word serializations quadruples the length. -/
theorem flatten_map_wordBytes_length (h : List Nat) :
    ((h.map wordBytes).flatten).length = 4 * h.length := by
  induction h with
  | nil => rfl
  | cons w ws ih => simp [wordBytes, ih]; omega

/-- A SHA-256 digest is 32 bytes. -/
theorem sha256_length (msg : List Nat) : (sha256 msg).length = 32 := by
  unfold sha256
  rw [flatten_map_wordBytes_length, sha256Blocks_length _ _ initH (by rfl)]

/-- Serialized word bytes are bytes. -/
theorem wordBytes_lt (w : Nat) : ∀ b ∈ wordBytes w, b < 256 := by
  simp only [wordBytes, List.mem_cons, List.not_mem_nil, or_false]
  rintro b (rfl | rfl | rfl | rfl) <;> omega

/-- SHA-256 digest entries are bytes. -/
theorem sha256_lt (msg : List Nat) : ∀ b ∈ sha256 msg, b < 256 := by
  unfold sha256
  intro b hb
  rw [List.mem_flatten] at hb
  obtain ⟨l, hl, hbl⟩ := hb
  rw [List.mem_map] at hl
  obtain ⟨w, _, rfl⟩ := hl
  exact wordBytes_lt w b hbl

/-- Hex encoding doubles the length. -/
theorem hexBytes_length (l : List Nat) : (hexBytes l).length = 2 * l.length := by
  induction l with
  | nil => rfl
  | cons b bs ih => simp [hexBytes] at ih ⊢; omega

/-- A nibble's hex digit is a lowercase hex ASCII character. -/
theorem hexDigit_range (n : Nat) (h : n < 16) :
    (48 ≤ hexDigit n ∧ hexDigit n ≤ 57) ∨ (97 ≤ hexDigit n ∧ hexDigit n ≤ 102) := by
  unfold hexDigit; split <;> omega

/-- Hex-encoded bytes are lowercase hex ASCII characters. -/
theorem hexBytes_range (l : List Nat) (hl : ∀ b ∈ l, b < 256) :
    ∀ c ∈ hexBytes l, (48 ≤ c ∧ c ≤ 57) ∨ (97 ≤ c ∧ c ≤ 102) := by
  intro c hc
  unfold hexBytes at hc
  rw [List.mem_flatten] at hc
  obtain ⟨x, hx, hcx⟩ := hc
  rw [List.mem_map] at hx
  obtain ⟨b, hb, rfl⟩ := hx
  have hb256 := hl b hb
  simp only [List.mem_cons, List.not_mem_nil, or_false] at hcx
  rcases hcx with rfl | rfl
  · exact hexDigit_range _ (by omega)
  · exact hexDigit_range _ (by omega)

/-- When both canonicalizations succeed, the Create Verify Hash output is
the hash of the two concatenated hex digests. -/
theorem create_verify_hash_ok {DE : Type} (canon : Canonicalizer DE)
    (dataset options : List RdfQuad) (oB dB : List Nat)
    (hO : canon options = .ok oB) (hD : canon dataset = .ok dB) :
    create_verify_hash canon dataset options =
      .ok (sha256 (hexBytes (sha256 oB) ++ hexBytes (sha256 dB))) := by
  unfold create_verify_hash
  rw [hO, hD]
  simp [Hasher.update, Hasher.finalize]

/-! ## Claim C1: the known-vector digest -/

/-- The fixed target dataset of the known vector:
`_:b0 rdf:type as:Note . _:b0 as:content "Hello, world!"`. -/
def knownVectorDataset : List RdfQuad :=
  [⟨.bnode "b0", .iri "http://www.w3.org/1999/02/22-rdf-syntax-ns#type",
    .iri "https://www.w3.org/ns/activitystreams#Note", none⟩,
   ⟨.bnode "b0", .iri "https://www.w3.org/ns/activitystreams#content",
    .literal "Hello, world!" xsdString, none⟩]

/-- The fixed signature options of the known vector
(src/common.rs:160-165). -/
def knownVectorOptions : SignatureOptions :=
  ⟨"2024-01-01T00:00:00Z", "https://example.com/users/1#main-key",
   some "https://w3id.org/security#assertionMethod", some "deadbeef12345678"⟩

/-- The expected digest bytes of the known vector. -/
def knownVectorDigest : List Nat :=
  [0xb0, 0x9a, 0xd7, 0xa6, 0x4f, 0x32, 0x90, 0x5a, 0xf0, 0xdd, 0xad, 0xa6,
   0x08, 0x2d, 0x9e, 0x7a, 0xf8, 0x9a, 0x00, 0x1d, 0xc6, 0xd0, 0x3b, 0x62,
   0xd9, 0x83, 0x03, 0x6c, 0x9f, 0x98, 0x16, 0x1b]

set_option maxRecDepth 1000000 in
/-- C1: for the fixed dataset and signature options of the regression
vector, `create_verify_hash` returns exactly the 32-byte digest whose
lowercase hex encoding is
`b09ad7a64f32905af0ddada6082d9e7af89a001dc6d03b62d983036c9f98161b`. -/
theorem known_vector_digest :
    create_verify_hash rdfc10Canon knownVectorDataset knownVectorOptions.to_dataset
      = .ok knownVectorDigest
    ∧ hexBytes knownVectorDigest =
        utf8Bytes "b09ad7a64f32905af0ddada6082d9e7af89a001dc6d03b62d983036c9f98161b" :=
  ⟨by rfl, by rfl⟩

/-! ## Claim C2: the Create Verify Hash formula -/

/-- The Create Verify Hash output as the spec states it: SHA-256 of the
UTF-8 bytes of the concatenation (no separator) of the lowercase-hex
encoding of the options digest followed by the lowercase-hex encoding of
the document digest. Stated from the spec's words, to be compared with
`create_verify_hash`, which follows the source's incremental-hasher
structure. -/
def createVerifyHashSpec (optionsCanonical documentCanonical : List Nat) : List Nat :=
  sha256 (hexBytes (sha256 optionsCanonical) ++ hexBytes (sha256 documentCanonical))

/-- C2: for every pair of datasets on which canonicalization succeeds,
`create_verify_hash` equals SHA-256 of the concatenation of the two
lowercase-hex SHA-256 digests (options first), each hex string being 64
lowercase hex characters. -/
theorem create_verify_hash_matches_spec {DE : Type} (canon : Canonicalizer DE)
    (dataset options : List RdfQuad) (oB dB : List Nat)
    (hO : canon options = .ok oB) (hD : canon dataset = .ok dB) :
    create_verify_hash canon dataset options = .ok (createVerifyHashSpec oB dB)
    ∧ (hexBytes (sha256 oB)).length = 64
    ∧ (hexBytes (sha256 dB)).length = 64
    ∧ (∀ c ∈ hexBytes (sha256 oB), (48 ≤ c ∧ c ≤ 57) ∨ (97 ≤ c ∧ c ≤ 102))
    ∧ (∀ c ∈ hexBytes (sha256 dB), (48 ≤ c ∧ c ≤ 57) ∨ (97 ≤ c ∧ c ≤ 102)) := by
  refine ⟨create_verify_hash_ok canon dataset options oB dB hO hD, ?_, ?_, ?_, ?_⟩
  · rw [hexBytes_length, sha256_length]
  · rw [hexBytes_length, sha256_length]
  · exact hexBytes_range _ (sha256_lt oB)
  · exact hexBytes_range _ (sha256_lt dB)

/-- Witness for C2: instantiation at the concrete canonicalizer and two
empty datasets, whose canonical form is the empty byte sequence. -/
theorem create_verify_hash_matches_spec_witness :
    rdfc10Canon [] = .ok []
    ∧ (create_verify_hash rdfc10Canon [] [] = .ok (createVerifyHashSpec [] [])
        ∧ (hexBytes (sha256 [])).length = 64
        ∧ (hexBytes (sha256 [])).length = 64
        ∧ (∀ c ∈ hexBytes (sha256 []), (48 ≤ c ∧ c ≤ 57) ∨ (97 ≤ c ∧ c ≤ 102))
        ∧ (∀ c ∈ hexBytes (sha256 []), (48 ≤ c ∧ c ≤ 57) ∨ (97 ≤ c ∧ c ≤ 102))) :=
  ⟨rfl, create_verify_hash_matches_spec rdfc10Canon [] [] [] [] rfl rfl⟩

/-! ## Claim C4: shape of the options dataset -/

/-- C4: every quad of `to_dataset` has subject `_:b0`, the default graph,
and one of the four fixed predicate IRIs; the `created` quad (typed
`xsd:dateTime`) and the `creator` quad are always present; the `domain`
and `nonce` quads are present exactly when the corresponding option was
supplied. -/
theorem to_dataset_shape (o : SignatureOptions) :
    (∀ q ∈ o.to_dataset, q.s = .bnode "b0" ∧ q.g = none
      ∧ (q.p = .iri CREATED ∨ q.p = .iri CREATOR ∨ q.p = .iri DOMAIN ∨ q.p = .iri NONCE))
    ∧ (⟨.bnode "b0", .iri CREATED, .literal o.created DATETIME, none⟩ ∈ o.to_dataset)
    ∧ (⟨.bnode "b0", .iri CREATOR, .iri o.creator, none⟩ ∈ o.to_dataset)
    ∧ (∀ d, o.domain = some d ↔
        (⟨.bnode "b0", .iri DOMAIN, .literal d xsdString, none⟩ : RdfQuad) ∈ o.to_dataset)
    ∧ (∀ n, o.nonce = some n ↔
        (⟨.bnode "b0", .iri NONCE, .literal n xsdString, none⟩ : RdfQuad) ∈ o.to_dataset) := by
  obtain ⟨c, cr, d, n⟩ := o
  rw [SignatureOptions.to_dataset_eq]
  cases d <;> cases n <;>
    simp_all [CREATED, CREATOR, DOMAIN, NONCE, DATETIME, xsdString] <;>
    aesop

/-- Witness for C4: the shape facts at the concrete options of the known
vector, applied at the `created` quad. -/
theorem to_dataset_shape_witness :
    ((⟨.bnode "b0", .iri CREATED, .literal "2024-01-01T00:00:00Z" DATETIME, none⟩ : RdfQuad)
        ∈ knownVectorOptions.to_dataset)
    ∧ ((Term.bnode "b0" : Term) = .bnode "b0" ∧ (none : Option Term) = none
        ∧ ((Term.iri CREATED : Term) = .iri CREATED ∨ (Term.iri CREATED : Term) = .iri CREATOR
            ∨ (Term.iri CREATED : Term) = .iri DOMAIN ∨ (Term.iri CREATED : Term) = .iri NONCE))
    ∧ (knownVectorOptions.domain = some "https://w3id.org/security#assertionMethod") :=
  ⟨by decide,
   (to_dataset_shape knownVectorOptions).1
     ⟨.bnode "b0", .iri CREATED, .literal "2024-01-01T00:00:00Z" DATETIME, none⟩ (by decide),
   (to_dataset_shape knownVectorOptions).2.2.2.1 "https://w3id.org/security#assertionMethod"
     |>.mpr (by decide)⟩

/-! ## Claim C5: context merge ordering -/

/-- Setting the last entry with a key present makes it the last value. -/
theorem getLast_setLast (k : String) (v : Json) :
    ∀ o : List (String × Json), (getLast k o).isSome →
      getLast k (setLast k v o) = some v := by
  intro o
  induction o with
  | nil => simp [getLast]
  | cons e rest ih =>
      obtain ⟨k', w⟩ := e
      intro hsome
      cases hg : getLast k rest with
      | some r =>
          have hrs : (getLast k rest).isSome := by simp [hg]
          simp [setLast, hrs, getLast, ih hrs]
      | none =>
          have hk : k' = k := by
            by_contra hne
            simp [getLast, hg, hne] at hsome
          subst hk
          simp [setLast, getLast, hg]

/-- C5: merging the document's `@context` value into a candidate object
puts the (array-coerced) document context items first, in their original
order, followed by the candidate's own entries (its own array items, or
the wrapped scalar); a candidate with no `@context` receives the
document's entry verbatim at the end. In particular, the spec's example
contexts merge to the spec's expected array. -/
theorem context_merge_ordering :
    (∀ (dc : Json) (o : List (String × Json)) (items : List Json),
        getLast "@context" o = some (.arr items) →
        getLast "@context" (mergeContext (some dc) o) = some (.arr (forceAsArray dc ++ items)))
    ∧ (∀ (dc : Json) (o : List (String × Json)) (v : Json),
        getLast "@context" o = some v → v.isArr = false →
        getLast "@context" (mergeContext (some dc) o) = some (.arr (forceAsArray dc ++ [v])))
    ∧ (∀ (dc : Json) (o : List (String × Json)),
        getLast "@context" o = none →
        mergeContext (some dc) o = o ++ [("@context", dc)])
    ∧ mergeContext
        (some (.arr [.str "https://w3id.org/security/v1",
                     .obj [("content", .str "https://www.w3.org/ns/activitystreams#content")]]))
        [("@context", .str "https://w3id.org/identity/v1")]
      = [("@context", .arr [.str "https://w3id.org/security/v1",
            .obj [("content", .str "https://www.w3.org/ns/activitystreams#content")],
            .str "https://w3id.org/identity/v1"])] := by
  refine ⟨?_, ?_, ?_, rfl⟩
  · intro dc o items h
    have hs : (getLast "@context" o).isSome := by simp [h]
    simp [mergeContext, h, getLast_setLast _ _ _ hs]
  · intro dc o v h hv
    have hs : (getLast "@context" o).isSome := by simp [h]
    cases v <;> simp [Json.isArr] at hv <;>
      simp [mergeContext, h, getLast_setLast _ _ _ hs]
  · intro dc o h
    simp [mergeContext, h]

/-- Witness for C5: the merge cases at concrete contexts. -/
theorem context_merge_ordering_witness :
    getLast "@context" (mergeContext (some (.str "https://w3id.org/security/v1"))
        [("@context", .arr [.str "https://w3id.org/identity/v1"])])
      = some (.arr (forceAsArray (.str "https://w3id.org/security/v1")
          ++ [.str "https://w3id.org/identity/v1"]))
    ∧ getLast "@context" (mergeContext (some (.str "https://w3id.org/security/v1"))
        [("@context", .str "https://w3id.org/identity/v1")])
      = some (.arr (forceAsArray (.str "https://w3id.org/security/v1")
          ++ [.str "https://w3id.org/identity/v1"]))
    ∧ mergeContext (some (.str "https://w3id.org/security/v1")) [("content", .null)]
      = [("content", .null), ("@context", .str "https://w3id.org/security/v1")] :=
  ⟨context_merge_ordering.1 _ _ _ rfl,
   context_merge_ordering.2.1 _ _ _ rfl rfl,
   context_merge_ordering.2.2.1 _ _ rfl⟩

/-! ## Claim C6: nested-node rejection -/

/-- Once a subject is fixed, any quad with a different subject or a named
graph makes the check fail. -/
theorem checkLoop_some_error {E : Type} (t : Term) :
    ∀ quads : List RdfQuad, (∃ q ∈ quads, q.s ≠ t ∨ q.g.isSome) →
      checkLoop (E := E) (some t) quads = .error .nestingSignatureNode := by
  intro quads
  induction quads with
  | nil => rintro ⟨q, hq, _⟩; exact absurd hq (List.not_mem_nil q)
  | cons q rest ih =>
      rintro ⟨q', hq', hbad⟩
      by_cases hcond : t ≠ q.s ∨ q.g.isSome = true
      · simp only [checkLoop]
        rw [if_pos hcond]
      · push_neg at hcond
        obtain ⟨hts, hg⟩ := hcond
        rcases List.mem_cons.mp hq' with rfl | hmem
        · rcases hbad with h | h
          · exact absurd hts.symm h
          · exact absurd h hg
        · simp only [checkLoop]
          rw [if_neg fun h => h.elim (fun hne => hne hts) hg]
          exact ih ⟨q', hmem, hbad⟩

/-- A non-blank-node subject or a named graph anywhere makes the check
fail from the initial state. -/
theorem checkLoop_none_flat_error {E : Type} :
    ∀ quads : List RdfQuad, (∃ q ∈ quads, q.s.isBnode = false ∨ q.g.isSome) →
      checkLoop (E := E) none quads = .error .nestingSignatureNode := by
  intro quads
  induction quads with
  | nil => rintro ⟨q, hq, _⟩; exact absurd hq (List.not_mem_nil q)
  | cons q rest ih =>
      rintro ⟨q', hq', hbad⟩
      by_cases hcond : (!q.s.isBnode) = true ∨ q.g.isSome = true
      · simp only [checkLoop]
        rw [if_pos hcond]
      · push_neg at hcond
        obtain ⟨hbn, hg⟩ := hcond
        have hbn' : q.s.isBnode = true := by
          cases hb : q.s.isBnode
          · exact absurd (by simp [hb]) hbn
          · rfl
        rcases List.mem_cons.mp hq' with rfl | hmem
        · rcases hbad with h | h
          · simp [h] at hbn'
          · exact absurd h hg
        · simp only [checkLoop]
          rw [if_neg fun h => h.elim hbn hg]
          apply checkLoop_some_error q.s rest
          rcases hbad with h | h
          · refine ⟨q', hmem, Or.inl ?_⟩
            intro hss
            simp [hss, hbn'] at h
          · exact ⟨q', hmem, Or.inr h⟩

/-- Two distinct subjects anywhere make the check fail from the initial
state. -/
theorem checkLoop_none_two_subjects_error {E : Type} (quads : List RdfQuad)
    (q q' : RdfQuad) (hq : q ∈ quads) (hq' : q' ∈ quads) (hne : q.s ≠ q'.s) :
    checkLoop (E := E) none quads = .error .nestingSignatureNode := by
  cases quads with
  | nil => exact absurd hq (List.not_mem_nil q)
  | cons q0 rest =>
      by_cases hcond : (!q0.s.isBnode) = true ∨ q0.g.isSome = true
      · simp only [checkLoop]
        rw [if_pos hcond]
      · push_neg at hcond
        obtain ⟨hbn, hg⟩ := hcond
        simp only [checkLoop]
        rw [if_neg fun h => h.elim hbn hg]
        apply checkLoop_some_error q0.s rest
        rcases List.mem_cons.mp hq with rfl | hmem
        · rcases List.mem_cons.mp hq' with rfl | hmem'
          · exact absurd rfl hne
          · exact ⟨q', hmem', Or.inl (Ne.symm hne)⟩
        · rcases List.mem_cons.mp hq' with rfl | hmem'
          · exact ⟨q, hmem, Or.inl hne⟩
          · by_cases hqs : q.s = q0.s
            · exact ⟨q', hmem', Or.inl fun h => hne (hqs.trans h.symm)⟩
            · exact ⟨q, hmem, Or.inl hqs⟩

/-- Removing a key from an object that holds it only as its last entry
yields the prefix and that entry's value. -/
theorem removeAll_append_single (key : String) (v : Json) :
    ∀ rest : List (String × Json), hasKey key rest = false →
      removeAll key (rest ++ [(key, v)]) = (rest, some v) := by
  intro rest
  induction rest with
  | nil => intro _; simp [removeAll]
  | cons e tail ih =>
      obtain ⟨k, w⟩ := e
      intro h
      simp [hasKey] at h
      simp [removeAll, ih h.2, h.1]

/-- C6: a signature candidate whose residual options object expands to
quads with two distinct subjects, a non-blank-node subject, or a named
graph makes `parse` fail with `NestingSignatureNode`. -/
theorem nesting_signature_node_rejection {E : Type}
    (expandDoc expandOpts : Json → Except E (List RdfQuad))
    (docRest : List (String × Json)) (sigJson : Json) (pre : PreSignature)
    (quads dq : List RdfQuad)
    (hk : hasKey "signature" docRest = false)
    (harr : sigJson.isArr = false)
    (hcand : processCandidate (E := E) (getLast "@context" docRest) sigJson = .ok pre)
    (hdoc : expandDoc (.obj docRest) = .ok dq)
    (hopts : expandOpts (.obj pre.optionsObj) = .ok quads)
    (hbad : (∃ q ∈ quads, ∃ q' ∈ quads, q.s ≠ q'.s)
      ∨ (∃ q ∈ quads, q.s.isBnode = false) ∨ (∃ q ∈ quads, q.g ≠ none)) :
    parse expandDoc expandOpts (.obj (docRest ++ [("signature", sigJson)]))
      = .error .nestingSignatureNode := by
  have hcheck : checkLoop (E := E) none quads = .error .nestingSignatureNode := by
    rcases hbad with ⟨q, hq, q', hq', hne⟩ | ⟨q, hq, h⟩ | ⟨q, hq, h⟩
    · exact checkLoop_none_two_subjects_error quads q q' hq hq' hne
    · exact checkLoop_none_flat_error quads ⟨q, hq, Or.inl h⟩
    · exact checkLoop_none_flat_error quads
        ⟨q, hq, Or.inr (Option.ne_none_iff_isSome.mp h)⟩
  cases sigJson
  case arr items => exact absurd harr (by simp [Json.isArr])
  all_goals
    simp only [parse, removeAll_append_single "signature" _ docRest hk]
    simp [mapExcept, hcand, hdoc, collectSignature, hopts, hcheck]

/-- Witness for C6: a candidate expanding to a single quad with an IRI
subject is rejected. -/
theorem nesting_signature_node_rejection_witness :
    parse (E := Unit) (fun _ => .ok [])
      (fun _ => .ok [⟨.iri "https://example.com/s", .iri "https://example.com/p",
        .iri "https://example.com/o", none⟩])
      (.obj [("signature", .obj [("type", .str "RsaSignature2017"),
        ("signatureValue", .str "")])])
      = .error .nestingSignatureNode :=
  nesting_signature_node_rejection (fun _ => .ok [])
    (fun _ => .ok [⟨.iri "https://example.com/s", .iri "https://example.com/p",
      .iri "https://example.com/o", none⟩])
    [] (.obj [("type", .str "RsaSignature2017"), ("signatureValue", .str "")])
    ⟨[], none, []⟩
    [⟨.iri "https://example.com/s", .iri "https://example.com/p",
      .iri "https://example.com/o", none⟩] []
    rfl rfl rfl rfl rfl
    (Or.inr (Or.inl (by decide)))

/-! ## Claim C7: the Verification error kind -/

/-- Discriminator for the `Verification` variant. -/
def VerifyError.isVerification {DE OE : Type} : VerifyError DE OE → Bool
  | .verification => true
  | _ => false

/-- C7: `verify_rsa_signature_2017` returns the `Verification` error kind
exactly when both canonicalizations succeed and the RSA check of the
signature against the recomputed digest fails; and the `Verification`
kind is a variant distinct from the dataset and options
(canonicalization) error kinds. -/
theorem verification_error_iff {DE : Type} (canon : Canonicalizer DE)
    (rsaVerify : List Nat → List Nat → Bool)
    (dataset options : List RdfQuad) (signature : List Nat) :
    (verify_rsa_signature_2017 canon rsaVerify dataset options signature
        = .error .verification
      ↔ (∃ oB, canon options = .ok oB) ∧ (∃ dB, canon dataset = .ok dB)
        ∧ ∃ t, create_verify_hash canon dataset options = .ok t
            ∧ rsaVerify t signature = false)
    ∧ (∀ e : DatasetError DE,
        (VerifyError.dataset e : VerifyError DE DE).isVerification = false)
    ∧ (∀ e : DatasetError DE,
        (VerifyError.options e : VerifyError DE DE).isVerification = false)
    ∧ ((VerifyError.verification : VerifyError DE DE).isVerification = true) := by
  refine ⟨?_, fun e => rfl, fun e => rfl, rfl⟩
  unfold verify_rsa_signature_2017 create_verify_hash
  cases hO : canon options with
  | error e => simp [hO]
  | ok oB =>
      cases hD : canon dataset with
      | error e => simp [hO, hD]
      | ok dB =>
          cases hrv : rsaVerify
              (Hasher.finalize (Hasher.update (Hasher.update []
                (hexBytes (Hasher.finalize (Hasher.update [] oB))))
                (hexBytes (Hasher.finalize (Hasher.update [] dB))))) signature with
          | false => simp [hO, hD, hrv]
          | true => simp [hO, hD, hrv]

/-- Witness for C7: with a trivially failing RSA check and the concrete
canonicalizer, verification reports the `Verification` kind. -/
theorem verification_error_iff_witness :
    verify_rsa_signature_2017 rdfc10Canon (fun _ _ => false) [] [] []
      = .error .verification :=
  (verification_error_iff rdfc10Canon (fun _ _ => false) [] [] []).1.mpr
    ⟨⟨[], rfl⟩, ⟨[], rfl⟩,
     ⟨sha256 (hexBytes (sha256 []) ++ hexBytes (sha256 [])),
      create_verify_hash_ok rdfc10Canon [] [] [] [] rfl rfl, rfl⟩⟩

/-! ## Claim C10: verification of a document with no signatures -/

/-- C10: a `SignedDocument` whose signature list is empty verifies
successfully for every key, performing no RSA check. -/
theorem verify_empty_signatures {DE : Type} (canon : Canonicalizer DE)
    (rsaVerify : List Nat → List Nat → Bool) (document : List RdfQuad) :
    SignedDocument.verify_rsa_signature_2017 canon rsaVerify ⟨document, []⟩
      = .ok () := rfl

/-! ## Claim C3: the sign/verify round trip -/

/-- Characterization of a successful sign-side hash computation: both
canonicalizations succeeded, the digest is the Create Verify Hash value,
and the returned `created` is the one the dataset construction
resolved. -/
theorem cvh_opt_ok {DE : Type} (canon : Canonicalizer DE) (now : String)
    (o : SignatureOptionsOpt) (dataset : List RdfQuad) (tbs : List Nat)
    (cr : Option String)
    (h : o.create_verify_hash canon now dataset = some (.ok (tbs, cr))) :
    ∃ oB dB, canon ((o.to_dataset now).1) = .ok oB ∧ canon dataset = .ok dB
      ∧ tbs = sha256 (hexBytes (sha256 oB) ++ hexBytes (sha256 dB))
      ∧ cr = (o.to_dataset now).2 := by
  unfold SignatureOptionsOpt.create_verify_hash at h
  rcases hds : o.to_dataset now with ⟨ds, cr0⟩
  rw [hds] at h
  cases hO : canon ds with
  | error e => simp [hO] at h
  | ok oB =>
      simp only [hO] at h
      cases hD : canon dataset with
      | error e => cases e <;> simp [hD] at h
      | ok dB =>
          simp only [hD, Hasher.update, Hasher.finalize, Option.some.injEq,
            Except.ok.injEq, Prod.mk.injEq, List.nil_append] at h
          exact ⟨oB, dB, rfl, rfl, h.1.symm, h.2.symm⟩

/-- Core of the round trip: a computed digest with its resolved `created`
verifies against the options dataset rebuilt from the resolved values,
for any RSA check that accepts the pair. -/
theorem roundtrip_core {DE : Type} (canon : Canonicalizer DE)
    (rsaVerify : List Nat → List Nat → Bool) (now : String)
    (createdOpt domainOpt : Option String) (nonce : Option String)
    (dataset : List RdfQuad) (creator : String) (tbs : List Nat)
    (cr : Option String) (sv : List Nat)
    (hcvh : SignatureOptionsOpt.create_verify_hash canon now
      ⟨createdOpt, creator, domainOpt, nonce⟩ dataset = some (.ok (tbs, cr)))
    (hver : rsaVerify tbs sv = true) :
    verify_rsa_signature_2017 canon rsaVerify dataset
      (SignatureOptions.to_dataset
        ⟨resolveCreated cr createdOpt now, creator, domainOpt, nonce⟩)
      sv = .ok () := by
  obtain ⟨oB, dB, hO, hD, htbs, hcr⟩ := cvh_opt_ok canon now _ dataset tbs cr hcvh
  have hres : resolveCreated cr createdOpt now = createdOpt.getD now := by
    rw [hcr, SignatureOptionsOpt.to_dataset_snd]
    cases createdOpt <;> rfl
  rw [hres, ← SignatureOptionsOpt.to_dataset_fst ⟨createdOpt, creator, domainOpt, nonce⟩ now]
  simp only [verify_rsa_signature_2017,
    create_verify_hash_ok canon dataset _ oB dB hO hD, ← htbs, hver]
  simp

/-- C3: whenever signing succeeds with a `Signature`, verifying the same
dataset against the options dataset rebuilt from that signature's
`created`/`creator`/`domain`/`nonce` and against its signature bytes
succeeds, provided the RSA primitive pair round-trips (a signature the
private key produced is accepted by the public key's check). -/
theorem sign_verify_roundtrip {DE : Type} (canon : Canonicalizer DE)
    (rsaSign : List Nat → Option (List Nat)) (rsaVerify : List Nat → List Nat → Bool)
    (genNonce now : String) (self : SignOptions) (dataset : List RdfQuad)
    (creator : String) (sig : Signature)
    (hkey : ∀ m s, rsaSign m = some s → rsaVerify m s = true)
    (hsign : self.sign_rsa_signature_2017 canon rsaSign genNonce now dataset creator
      = some (.ok sig)) :
    verify_rsa_signature_2017 canon rsaVerify dataset
      (SignatureOptions.to_dataset ⟨sig.created, sig.creator, sig.domain, sig.nonce⟩)
      sig.signature_value = .ok () := by
  unfold SignOptions.sign_rsa_signature_2017 at hsign
  cases hcvh : SignatureOptionsOpt.create_verify_hash canon now
      ⟨self.created, creator, self.domain, resolveNonce self.nonce genNonce⟩ dataset with
  | none => simp [hcvh] at hsign
  | some r =>
      simp only [hcvh] at hsign
      cases r with
      | error e => simp at hsign
      | ok p =>
          obtain ⟨tbs, cr⟩ := p
          dsimp only at hsign
          cases hrs : rsaSign tbs with
          | none => simp [hrs] at hsign
          | some sv =>
              simp only [hrs, Option.some.injEq, Except.ok.injEq] at hsign
              subst hsign
              exact roundtrip_core canon rsaVerify now self.created self.domain
                (resolveNonce self.nonce genNonce) dataset creator tbs cr sv hcvh
                (hkey tbs sv hrs)

set_option maxRecDepth 100000 in
/-- Witness for C3: a concrete sign-then-verify round trip with a trivial
canonicalizer and RSA pair. -/
theorem sign_verify_roundtrip_witness :
    verify_rsa_signature_2017 ((fun _ => .ok []) : Canonicalizer Unit) (fun _ _ => true) []
      (SignatureOptions.to_dataset
        ⟨"2024-01-01T00:00:00Z", "https://example.com/#me", none, none⟩)
      (sha256 (hexBytes (sha256 []) ++ hexBytes (sha256 []))) = .ok () :=
  sign_verify_roundtrip (fun _ => .ok []) (fun m => some m) (fun _ _ => true)
    "genNonce" "2024-02-02T00:00:00.000Z"
    ⟨some "2024-01-01T00:00:00Z", none, some none⟩ [] "https://example.com/#me"
    ⟨.RsaSignature2017, "2024-01-01T00:00:00Z", "https://example.com/#me", none, none,
     sha256 (hexBytes (sha256 []) ++ hexBytes (sha256 []))⟩
    (fun _ _ _ => rfl) rfl

/-! ## Claim C8: RSA signing failure -/

/-- C8 (amended): when the digest computation succeeds but the RSA
primitive fails on it, `sign_rsa_signature_2017` panics (the source
unwraps the `rsa` result at src/sign.rs:150), modelled by `none`; it
neither retries nor returns an error result. -/
theorem sign_rsa_failure_panics {DE : Type} (canon : Canonicalizer DE)
    (rsaSign : List Nat → Option (List Nat)) (genNonce now : String)
    (self : SignOptions) (dataset : List RdfQuad) (creator : String)
    (tbs : List Nat) (cr : Option String)
    (hcvh : SignatureOptionsOpt.create_verify_hash canon now
      ⟨self.created, creator, self.domain, resolveNonce self.nonce genNonce⟩ dataset
      = some (.ok (tbs, cr)))
    (hfail : rsaSign tbs = none) :
    self.sign_rsa_signature_2017 canon rsaSign genNonce now dataset creator = none := by
  unfold SignOptions.sign_rsa_signature_2017
  simp only [hcvh, hfail]

set_option maxRecDepth 100000 in
/-- C8 counterexample: with an RSA primitive that fails, signing panics
(`none`); it does not return an error result as the claim states. -/
theorem sign_rsa_failure_panics_cex :
    SignOptions.sign_rsa_signature_2017 ((fun _ => .ok []) : Canonicalizer Unit)
      (fun _ => none) "genNonce" "2024-02-02T00:00:00.000Z"
      ⟨some "2024-01-01T00:00:00Z", none, some none⟩ [] "https://example.com/#me"
      = none := rfl

set_option maxRecDepth 100000 in
/-- Witness for C8 (amended): the panic outcome at a concrete input with
an unset `created`. -/
theorem sign_rsa_failure_panics_witness :
    SignOptions.sign_rsa_signature_2017 ((fun _ => .ok []) : Canonicalizer Unit)
      (fun _ => none) "genNonce" "2024-03-03T00:00:00.000Z"
      ⟨none, none, none⟩ [] "https://example.com/#me" = none :=
  sign_rsa_failure_panics (fun _ => .ok []) (fun _ => none) "genNonce"
    "2024-03-03T00:00:00.000Z" ⟨none, none, none⟩ [] "https://example.com/#me"
    (sha256 (hexBytes (sha256 []) ++ hexBytes (sha256 [])))
    (some "2024-03-03T00:00:00.000Z") rfl rfl

/-! ## Claim C9: empty top-level signature array -/

/-- C9 (amended): a top-level `signature` entry whose value is an empty
array yields zero candidates, and `parse` succeeds with an empty
signature list (given the residual document expands); it does not fail
with `MissingSignatureOptions`. -/
theorem parse_empty_signature_array {E : Type}
    (expandDoc expandOpts : Json → Except E (List RdfQuad))
    (docRest : List (String × Json)) (dq : List RdfQuad)
    (hk : hasKey "signature" docRest = false)
    (hdoc : expandDoc (.obj docRest) = .ok dq) :
    parse expandDoc expandOpts (.obj (docRest ++ [("signature", .arr [])]))
      = .ok ⟨dq, []⟩ := by
  simp only [parse, removeAll_append_single "signature" _ docRest hk]
  simp [mapExcept, hdoc]

/-- C9 counterexample: at a concrete document whose `signature` entry is
the empty array, `parse` succeeds with no signatures instead of failing
with `MissingSignatureOptions`. -/
theorem parse_empty_signature_array_cex :
    parse (E := Unit) (fun _ => .ok []) (fun _ => .ok [])
      (.obj [("signature", .arr [])]) = .ok ⟨[], []⟩ := rfl

/-- Witness for C9 (amended): a document with a context entry and an
empty signature array parses to a signature-free result. -/
theorem parse_empty_signature_array_witness :
    parse (E := Unit) (fun _ => .ok []) (fun _ => .ok [])
      (.obj [("@context", .str "https://w3id.org/security/v1"), ("signature", .arr [])])
      = .ok ⟨[], []⟩ :=
  parse_empty_signature_array (fun _ => .ok []) (fun _ => .ok [])
    [("@context", .str "https://w3id.org/security/v1")] [] rfl rfl

end RsaSig2017
